import Mathlib

/-!
Shallow embedding of the graphql-access-control sample service.

Source files embedded:
  * `index.js` (first variant in the repository): resolvers filtering with
    `owner.localeCompare(context.subject) == 0`, fake-token decoding with
    try/catch (`tokToSubjectFakeToks`), token introspection
    (`tokToSubjectIntrospection`), and `contextToSubject`.
  * the second variant of the server file: resolvers filtering with the raw
    truthiness of `owner.localeCompare(context.subject)`, a `tokToSubject`
    without try/catch, and `reqToSubject`.
  * `data.js`: the hardcoded sample accounts and transfers.

Modelling conventions:
  * JavaScript strings are modelled as Lean `String`; all data flowing through
    the service (header values, tokens, JSON bodies, owner codes) is ASCII, for
    which `String.length`, `substring`, and per-character handling coincide
    with the UTF-16 semantics of JavaScript.
  * `JSON.parse` is modelled by an executable recursive-descent parser that is
    deliberately lenient (it accepts a superset of JSON), so that every input
    the real parser accepts is accepted here; universally quantified theorems
    conditioned on parse *failure* therefore never cover an input on which the
    real program would have succeeded.
  * `Buffer.from(tok, 'base64')` is modelled by Node's lenient decoder:
    characters outside the (standard + url-safe) alphabet, including padding,
    are skipped, and leftover sextets are truncated.
  * `a.localeCompare(b) == 0` is modelled as string equality: for the ASCII
    owner codes and sentinel subjects of this repository, default-locale
    collation coincides with codepoint equality.
  * A thrown JavaScript exception is an `Except.error`; the value `undefined`
    is `JsVal.undefined`.
-/

set_option linter.unusedVariables false

/-! ### JavaScript value model -/

/-- A parsed JSON value (result of `JSON.parse`).  Numbers keep their source
text: none of the service's logic reads a numeric value other than for
truthiness. -/
inductive Json where
  | null : Json
  | jbool : Bool → Json
  | num : String → Json
  | str : String → Json
  | arr : List Json → Json
  | obj : List (String × Json) → Json

/-- A JavaScript value as seen by the service: either `undefined` or a parsed
JSON value. -/
inductive JsVal where
  | undefined : JsVal
  | val : Json → JsVal

/-- A thrown JavaScript exception, as relevant here: `SyntaxError` from
`JSON.parse` and `TypeError` from property access / method call on an
unsuitable receiver. -/
inductive JsError where
  | parseError : JsError
  | typeError : JsError
deriving DecidableEq

/-- Object property lookup with JavaScript semantics for duplicate keys in a
parsed object: the last occurrence wins. -/
def jsObjLookup (k : String) : List (String × Json) → Option Json
  | [] => none
  | (k2, v) :: rest =>
    match jsObjLookup k rest with
    | some v2 => some v2
    | none => if k2 == k then some v else none

/-- `j.k` — property access.  On `null` it throws a `TypeError`; on any
non-object it yields `undefined`; on an object it looks the key up. -/
def jsGetProp (j : Json) (k : String) : Except JsError JsVal :=
  match j with
  | .null => .error .typeError
  | .obj fields =>
    match jsObjLookup k fields with
    | some v => .ok (.val v)
    | none => .ok .undefined
  | _ => .ok .undefined

/-- Whether a JSON number literal denotes zero: every digit of its mantissa
(the part before any exponent marker) is `0`. -/
def numLitIsZero (raw : String) : Bool :=
  (raw.data.takeWhile (fun c => !(c == Char.ofNat 101 || c == Char.ofNat 69))).all
    (fun c => !(49 ≤ c.toNat && c.toNat ≤ 57))

/-- JavaScript truthiness of a value: `undefined`, `null`, `false`, zero
numbers and the empty string are falsy; everything else is truthy. -/
def jsTruthy : JsVal → Bool
  | .undefined => false
  | .val .null => false
  | .val (.jbool b) => b
  | .val (.num raw) => !(numLitIsZero raw)
  | .val (.str s) => !(s == "")
  | .val (.arr _) => true
  | .val (.obj _) => true

/-- Whether a value is the boolean `true` itself (strict equality `=== true`),
as opposed to merely being truthy. -/
def jsStrictlyTrue : JsVal → Bool
  | .val (.jbool true) => true
  | _ => false

/-! ### Node base64 (`Buffer.from(tok, 'base64')` / encoding) -/

/-- The sextet denoted by one base64 alphabet character; `none` for characters
outside the alphabet (Node skips those, padding `=` included).  Both the
standard and the url-safe alphabets are accepted, as Node does. -/
def b64SextetOf (c : Char) : Option Nat :=
  let n := c.toNat
  if 65 ≤ n && n ≤ 90 then some (n - 65)
  else if 97 ≤ n && n ≤ 122 then some (n - 71)
  else if 48 ≤ n && n ≤ 57 then some (n + 4)
  else if n == 43 || n == 45 then some 62
  else if n == 47 || n == 95 then some 63
  else none

/-- The standard-alphabet character of a sextet. -/
def b64CharOf (s : Nat) : Char :=
  if s < 26 then Char.ofNat (s + 65)
  else if s < 52 then Char.ofNat (s + 71)
  else if s < 62 then Char.ofNat (s - 4)
  else if s == 62 then Char.ofNat 43
  else Char.ofNat 47

/-- The padding character. -/
def b64PadChar : Char := Char.ofNat 61

/-- Standard base64 encoding of a byte sequence, with padding. -/
def b64EncodeBytes : List Nat → List Char
  | [] => []
  | [b1] => [b64CharOf (b1 / 4), b64CharOf (b1 % 4 * 16), b64PadChar, b64PadChar]
  | [b1, b2] =>
      [b64CharOf (b1 / 4), b64CharOf (b1 % 4 * 16 + b2 / 16), b64CharOf (b2 % 16 * 4), b64PadChar]
  | b1 :: b2 :: b3 :: rest =>
      b64CharOf (b1 / 4) :: b64CharOf (b1 % 4 * 16 + b2 / 16) ::
        b64CharOf (b2 % 16 * 4 + b3 / 64) :: b64CharOf (b3 % 64) :: b64EncodeBytes rest

/-- Reassemble bytes from a sextet stream, truncating a leftover sextet that
cannot fill a byte, as Node's decoder does. -/
def b64BytesOfSextets : List Nat → List Nat
  | [] => []
  | [_] => []
  | [s1, s2] => [s1 * 4 + s2 / 16]
  | [s1, s2, s3] => [s1 * 4 + s2 / 16, s2 % 16 * 16 + s3 / 4]
  | s1 :: s2 :: s3 :: s4 :: rest =>
      (s1 * 4 + s2 / 16) :: (s2 % 16 * 16 + s3 / 4) :: (s3 % 4 * 64 + s4) ::
        b64BytesOfSextets rest

/-- Node's lenient base64 decode: skip non-alphabet characters, then
reassemble. -/
def b64DecodeToBytes (s : String) : List Nat :=
  b64BytesOfSextets (s.data.filterMap b64SextetOf)

/-- `Buffer.from(tok, 'base64').toString()` for the ASCII payloads of this
repository: each decoded byte is one character. -/
def bufB64ToString (tok : String) : String :=
  ⟨(b64DecodeToBytes tok).map Char.ofNat⟩

/-- The UTF-8 bytes of an ASCII string (one byte per character). -/
def strToBytes (s : String) : List Nat := s.data.map Char.toNat

/-- Base64 encoding of an ASCII string, as `Buffer.from(s).toString('base64')`
produces it. -/
def b64EncodeString (s : String) : String := ⟨b64EncodeBytes (strToBytes s)⟩

/-! ### `JSON.parse` -/

/-- JSON insignificant whitespace. -/
def jsonWs (c : Char) : Bool :=
  c == Char.ofNat 32 || c == Char.ofNat 9 || c == Char.ofNat 10 || c == Char.ofNat 13

/-- Drop leading whitespace. -/
def skipWs : List Char → List Char
  | [] => []
  | c :: rest => if jsonWs c then skipWs rest else c :: rest

/-- The character denoted by `\c` in a JSON string literal (identity on
characters outside the named escapes; lenient by design). -/
def jsonEscChar (c : Char) : Char :=
  if c == Char.ofNat 110 then Char.ofNat 10
  else if c == Char.ofNat 116 then Char.ofNat 9
  else if c == Char.ofNat 114 then Char.ofNat 13
  else if c == Char.ofNat 98 then Char.ofNat 8
  else if c == Char.ofNat 102 then Char.ofNat 12
  else c

/-- Parse the body of a string literal, after its opening quote; returns the
content and the input remaining after the closing quote. -/
def parseStrBody : List Char → Option (List Char × List Char)
  | [] => none
  | c :: rest =>
    if c == Char.ofNat 34 then some ([], rest)
    else if c == Char.ofNat 92 then
      match rest with
      | [] => none
      | e :: rest2 =>
        match parseStrBody rest2 with
        | some (s, r) => some (jsonEscChar e :: s, r)
        | none => none
    else
      match parseStrBody rest with
      | some (s, r) => some (c :: s, r)
      | none => none

/-- A character that can occur in a number token. -/
def jsonNumChar (c : Char) : Bool :=
  (48 ≤ c.toNat && c.toNat ≤ 57) || c == Char.ofNat 43 || c == Char.ofNat 45 ||
    c == Char.ofNat 46 || c == Char.ofNat 101 || c == Char.ofNat 69

/-- Match a literal tail (e.g. `rue` after `t`); returns the rest on success. -/
def matchLit : List Char → List Char → Option (List Char)
  | [], rest => some rest
  | l :: ls, r :: rs => if r == l then matchLit ls rs else none
  | _ :: _, [] => none

mutual

/-- Recursive-descent parser for a JSON value, fuelled for the nesting
recursion; lenient on numbers and escapes so that it accepts a superset of the
inputs `JSON.parse` accepts. -/
def parseValue : Nat → List Char → Option (Json × List Char)
  | 0, _ => none
  | fuel + 1, input =>
    match skipWs input with
    | [] => none
    | c :: rest =>
      if c == Char.ofNat 34 then
        match parseStrBody rest with
        | some (s, r) => some (.str ⟨s⟩, r)
        | none => none
      else if c == Char.ofNat 123 then
        match skipWs rest with
        | c2 :: r2 =>
          if c2 == Char.ofNat 125 then some (.obj [], r2)
          else
            match parseMembers fuel (c2 :: r2) with
            | some (fields, r3) => some (.obj fields, r3)
            | none => none
        | [] => none
      else if c == Char.ofNat 91 then
        match skipWs rest with
        | c2 :: r2 =>
          if c2 == Char.ofNat 93 then some (.arr [], r2)
          else
            match parseElems fuel (c2 :: r2) with
            | some (elems, r3) => some (.arr elems, r3)
            | none => none
        | [] => none
      else if c == Char.ofNat 116 then
        match matchLit [Char.ofNat 114, Char.ofNat 117, Char.ofNat 101] rest with
        | some r => some (.jbool true, r)
        | none => none
      else if c == Char.ofNat 102 then
        match matchLit [Char.ofNat 97, Char.ofNat 108, Char.ofNat 115, Char.ofNat 101] rest with
        | some r => some (.jbool false, r)
        | none => none
      else if c == Char.ofNat 110 then
        match matchLit [Char.ofNat 117, Char.ofNat 108, Char.ofNat 108] rest with
        | some r => some (.null, r)
        | none => none
      else if jsonNumChar c then
        some (.num ⟨List.takeWhile jsonNumChar (c :: rest)⟩,
          List.dropWhile jsonNumChar (c :: rest))
      else none

/-- Parse the members of an object, after its opening brace and any leading
whitespace, the empty-object case excluded; consumes the closing brace. -/
def parseMembers : Nat → List Char → Option (List (String × Json) × List Char)
  | 0, _ => none
  | fuel + 1, input =>
    match input with
    | [] => none
    | c :: rest =>
      if c == Char.ofNat 34 then
        match parseStrBody rest with
        | some (k, r1) =>
          match skipWs r1 with
          | c2 :: r2 =>
            if c2 == Char.ofNat 58 then
              match parseValue fuel r2 with
              | some (v, r3) =>
                match skipWs r3 with
                | c3 :: r4 =>
                  if c3 == Char.ofNat 44 then
                    match parseMembers fuel (skipWs r4) with
                    | some (fields, r5) => some ((⟨k⟩, v) :: fields, r5)
                    | none => none
                  else if c3 == Char.ofNat 125 then some ([(⟨k⟩, v)], r4)
                  else none
                | [] => none
              | none => none
            else none
          | [] => none
        | none => none
      else none

/-- Parse the elements of an array, after its opening bracket and any leading
whitespace, the empty-array case excluded; consumes the closing bracket. -/
def parseElems : Nat → List Char → Option (List Json × List Char)
  | 0, _ => none
  | fuel + 1, input =>
    match parseValue fuel input with
    | some (v, r) =>
      match skipWs r with
      | c :: r2 =>
        if c == Char.ofNat 44 then
          match parseElems fuel r2 with
          | some (vs, r3) => some (v :: vs, r3)
          | none => none
        else if c == Char.ofNat 93 then some ([v], r2)
        else none
      | [] => none
    | none => none

end

/-- `JSON.parse` on a whole document: one value, possibly surrounded by
whitespace.  `none` models a thrown `SyntaxError`. -/
def jsonParse (s : String) : Option Json :=
  match parseValue (s.length + 1) s.data with
  | some (v, rest) =>
    match skipWs rest with
    | [] => some v
    | _ :: _ => none
  | none => none

/-! ### Identity resolution — first variant (`index.js`) -/

/-- `tokToSubjectFakeToks(tok)`: base64-decode the token, `JSON.parse` it
inside a try/catch and read its `subject` property; any thrown error (parse
failure, or property access on `null`) is caught and turned into the sentinel
`"Fake token failure"`. -/
def tokToSubjectFakeToks (tok : String) : JsVal :=
  match jsonParse (bufB64ToString tok) with
  | none => .val (.str "Fake token failure")
  | some ojedTok =>
    match jsGetProp ojedTok "subject" with
    | .ok v => v
    | .error _ => .val (.str "Fake token failure")

/-- `tokToSubject(tok)` as shipped: alternative 1 (introspection) is commented
out in the source, alternative 2 (fake tokens) is live. -/
def tokToSubject (tok : String) : JsVal := tokToSubjectFakeToks tok

/-- `contextToSubject(context)`: the value written into `context.subject`,
as a function of the request's `authorization` header (`none` = header
absent).  `token.substring(7)` is `String.drop 7`. -/
def contextToSubject (auth : Option String) : JsVal :=
  let token := auth.getD ""
  if token.length > 7 then tokToSubject (token.drop 7)
  else .val (.str "no subject present")

/-! ### Identity resolution — second variant (no try/catch) -/

/-- `tokToSubject(tok)` of the second server variant: same decode-parse-read
pipeline but with no try/catch, so a `JSON.parse` failure or a `TypeError`
propagates to the caller as a thrown error. -/
def tokToSubjectV2 (tok : String) : Except JsError JsVal :=
  match jsonParse (bufB64ToString tok) with
  | none => .error .parseError
  | some ojedTok => jsGetProp ojedTok "subject"

/-- `reqToSubject(req)` of the second server variant: sentinel `"anonymous"`
for a short or missing header, otherwise the (fallible) token resolution. -/
def reqToSubject (auth : Option String) : Except JsError JsVal :=
  let token := auth.getD ""
  if token.length > 7 then tokToSubjectV2 (token.drop 7)
  else .ok (.val (.str "anonymous"))

/-! ### Identity resolution — remote introspection strategy -/

/-- The character `@`. -/
def atChar : Char := Char.ofNat 64

/-- Recursion underlying `indexOf`: index of the first occurrence in a
character list, `-1` when absent. -/
def jsIndexOfAux (c : Char) : List Char → Int
  | [] => -1
  | x :: rest =>
    if x == c then 0
    else if jsIndexOfAux c rest < 0 then -1 else jsIndexOfAux c rest + 1

/-- `u.indexOf(c)`: index of the first occurrence, `-1` when absent. -/
def jsIndexOf (u : String) (c : Char) : Int := jsIndexOfAux c u.data

/-- `u.substring(0, e)`: clamps a negative or oversized end index. -/
def jsSubstringTo (u : String) (e : Int) : String :=
  ⟨u.data.take e.toNat⟩

/-- The part of the `try` block of `tokToSubjectIntrospection` that follows
`JSON.parse`, as a function of the parsed response.
`introspection_response.active` is read twice (`if (!...)` /
`else if (...)`), on the same parsed object both times;
`username.substring(...)` throws a `TypeError` when `Username` is not a
string.  The final `else` branch is in the source and is kept here. -/
def introspectionHandle (introspection_response : Json) : Except JsError String :=
  match jsGetProp introspection_response "active" with
  | .error e => .error e
  | .ok active =>
    if !(jsTruthy active) then .ok "not authenticated"
    else if jsTruthy active then
      match jsGetProp introspection_response "Username" with
      | .error e => .error e
      | .ok username =>
        match username with
        | .val (.str u) => .ok (jsSubstringTo u (jsIndexOf u atChar))
        | _ => .error .typeError
    else .ok "Introspection failed"

/-- The `JSON.parse` step of the same `try` block. -/
def introspectionBody (response_body : String) : Except JsError String :=
  match jsonParse response_body with
  | none => .error .parseError
  | some introspection_response => introspectionHandle introspection_response

/-- The outcome of the awaited network call made by `getPingFedPromise`:
either a response body, or a fault (rejected promise: network error,
timeout). -/
inductive IntrospectionNet where
  | body : String → IntrospectionNet
  | fault : IntrospectionNet

/-- `tokToSubjectIntrospection(tok)` as a function of the network outcome for
the token: the whole body runs in a try/catch whose catch returns
`"Introspection failed"`. -/
def tokToSubjectIntrospection : IntrospectionNet → String
  | .body s =>
    match introspectionBody s with
    | .ok subject => subject
    | .error _ => "Introspection failed"
  | .fault => "Introspection failed"

/-! ### The sample data (`data.js`) -/

/-- An account record of the schema. -/
structure Account where
  id : String
  branch : String
  currency : String
  type : String
  balance : String
  owner : String
  nickname : String
deriving DecidableEq

/-- A transfer record of the schema. -/
structure Transfer where
  date : String
  amount : String
  currency : String
  creditor : Account
  debitor : Account
deriving DecidableEq

/-- Account `516236577` of `data.js`. -/
def acct516236577 : Account :=
  { id := "516236577", branch := "31801", currency := "CAD", type := "Checking",
    balance := "$6,832.14", owner := "469863216813", nickname := "Checking" }

/-- Account `516236582` of `data.js`. -/
def acct516236582 : Account :=
  { id := "516236582", branch := "31801", currency := "CAD", type := "Savings",
    balance := "$37,851.64", owner := "469863216813", nickname := "Savings" }

/-- Account `516236631` of `data.js`. -/
def acct516236631 : Account :=
  { id := "516236631", branch := "31801", currency := "CAD", type := "Credit Card",
    balance := "-$11,278.40", owner := "469863216813", nickname := "Family Visa" }

/-- Account `745586325` of `data.js`. -/
def acct745586325 : Account :=
  { id := "745586325", branch := "31801", currency := "CAD", type := "Checking",
    balance := "$782.14", owner := "467745863242", nickname := "Checking" }

/-- Account `745586331` of `data.js`. -/
def acct745586331 : Account :=
  { id := "745586331", branch := "31801", currency := "CAD", type := "Savings",
    balance := "$1,875.65", owner := "467745863242", nickname := "Savings" }

/-- Account `745586340` of `data.js`. -/
def acct745586340 : Account :=
  { id := "745586340", branch := "31801", currency := "CAD", type := "Credit Card",
    balance := "-$3,887.40", owner := "467745863242", nickname := "Meg\x27s Amex" }

/-- `exports.accounts` of `data.js`. -/
def dataAccounts : List Account :=
  [acct516236577, acct516236582, acct516236631,
   acct745586325, acct745586331, acct745586340]

/-- First transfer of `data.js`: its creditor and debitor legs repeat the
account objects of `exports.accounts` field for field. -/
def transfer1 : Transfer :=
  { date := "Fri Feb 21 21:31:20 UTC 2019", amount := "$9,874.25", currency := "CAD",
    creditor := acct516236577, debitor := acct516236631 }

/-- Second transfer of `data.js`. -/
def transfer2 : Transfer :=
  { date := "Thu Feb 20 16:31:20 UTC 2019", amount := "$9,874.25", currency := "CAD",
    creditor := acct745586331, debitor := acct745586325 }

/-- `exports.transfers` of `data.js`. -/
def dataTransfers : List Transfer := [transfer1, transfer2]

/-! ### The resolvers (Authorization Filter) -/

/-- The `accounts` resolver of the first variant, as a function of the
resolved subject string: the index loop appending `data.accounts[i]` exactly
when `owner.localeCompare(context.subject) == 0`, i.e. when the owner equals
the subject. -/
def accountsQuery (subject : String) : List Account :=
  dataAccounts.filter (fun a => a.owner == subject)

/-- The `transfers` resolver of the first variant: appends
`data.transfers[i]` exactly when
`creditor.owner.localeCompare(context.subject) == 0`.  The debitor leg is
not read. -/
def transfersQuery (subject : String) : List Transfer :=
  dataTransfers.filter (fun t => t.creditor.owner == subject)

/-- The `accounts` resolver of the second variant: the raw
`localeCompare` result is the `if` condition, and it is truthy exactly when
it is nonzero, i.e. when the owner does NOT equal the subject. -/
def accountsQueryV2 (subject : String) : List Account :=
  dataAccounts.filter (fun a => !(a.owner == subject))

/-- The `transfers` resolver of the second variant: includes a transfer
exactly when the creditor owner does NOT equal the subject. -/
def transfersQueryV2 (subject : String) : List Transfer :=
  dataTransfers.filter (fun t => !(t.creditor.owner == subject))

/-! ### Auxiliary definitions used by the statements -/

/-- The fake token of `data.js` for subject `469863216813` (the base64 of
`{"subject":"469863216813","scopes":"names"}`). -/
def fakeToken469863216813 : String :=
  "eyJzdWJqZWN0IjoiNDY5ODYzMjE2ODEzIiwic2NvcGVzIjoibmFtZXMifQ=="

/-- The five sentinel subject strings of the two variants. -/
def sentinelSubjects : List String :=
  ["no subject present", "anonymous", "not authenticated",
   "Fake token failure", "Introspection failed"]

/-- A local-strategy credential for subject `X`, built the way the sample
tokens of `data.js` are built: the base64 encoding of a JSON object with a
`subject` field holding `X`. -/
def fakeTokenFor (X : String) : String :=
  b64EncodeString ("\x7b\"subject\":\"" ++ X ++ "\"\x7d")

/-- Subject resolution as one reading of the spec words it: the sentinel is
produced only when the header is absent, empty, or strictly shorter than the
7-character prefix; any other value has its first 7 characters stripped and
the remainder resolved as a token.  Compared against `contextToSubject`
below. -/
def contextToSubjectSpec (auth : Option String) : JsVal :=
  match auth with
  | none => .val (.str "no subject present")
  | some token =>
    if token == "" then .val (.str "no subject present")
    else if token.length < 7 then .val (.str "no subject present")
    else tokToSubject (token.drop 7)

/-! ### Claims about the Authorization Filter -/

/-- C1: the claim states that the accounts operation includes a record iff its
owner equals the subject, and it cites both resolver variants.  The first
variant (`localeCompare(...) == 0`) filters on equality, but the second
variant uses the raw `localeCompare` result as the condition, which is truthy
exactly on INEQUALITY, against its own comment "add to output only if owner
matches": evaluated on the sample store, each subject receives exactly the
three accounts of the OTHER subject and none of its own. -/
theorem c1_accountsV2_inverts_ownership :
    accountsQuery "467745863242" = [acct745586325, acct745586331, acct745586340] ∧
    accountsQueryV2 "467745863242" = [acct516236577, acct516236582, acct516236631] ∧
    accountsQueryV2 "469863216813" = [acct745586325, acct745586331, acct745586340] ∧
    (accountsQueryV2 "467745863242").all (fun a => !(a.owner == "467745863242")) = true := by
  refine ⟨by decide, by decide, by decide, by decide⟩

/-- C2: the claim states that the transfers operation includes a transfer iff
its creditor leg's owner equals the subject, citing both variants.  The first
variant does; the second variant includes a transfer exactly when the creditor
owner does NOT equal the subject: subject `469863216813` receives exactly the
transfer credited to `467745863242` instead of its own.  (In both variants the
debitor leg is indeed never read: the filter predicates mention only
`creditor.owner`.) -/
theorem c2_transfersV2_inverts_ownership :
    transfersQuery "469863216813" = [transfer1] ∧
    transfersQueryV2 "469863216813" = [transfer2] ∧
    transfer2.creditor.owner = "467745863242" ∧
    transfersQueryV2 "467745863242" = [transfer1] := by
  refine ⟨by decide, by decide, rfl, by decide⟩

/-! ### Claims about identity resolution -/

/-- C3 (counterexample): in the second variant, `tokToSubject` has no
try/catch, so a credential remainder that does not decode to JSON (here
`"%%%%"`, which base64-decodes to the empty string) makes `JSON.parse` throw
and the fault propagates out of `reqToSubject` — resolution does NOT return
the `"Fake token failure"` sentinel on every such path, contrary to the
claim. -/
theorem c3_counterexample_v2_parse_fault_escapes :
    jsonParse (bufB64ToString "%%%%") = none ∧
    tokToSubjectV2 "%%%%" = .error .parseError ∧
    reqToSubject (some "Bearer %%%%") = .error .parseError :=
  ⟨rfl, rfl, rfl⟩

/-- C3 (amended): in the first variant — the one with the try/catch
(`tokToSubjectFakeToks`, the live strategy of `tokToSubject`) — every
credential remainder whose decoded form fails to parse as JSON yields the
deterministic sentinel `"Fake token failure"` instead of a fault; the second
variant, having no try/catch, instead propagates the parse error. -/
theorem c3_fake_token_failure_sentinel (tok : String)
    (h : jsonParse (bufB64ToString tok) = none) :
    tokToSubjectFakeToks tok = .val (.str "Fake token failure") := by
  unfold tokToSubjectFakeToks
  rw [h]

/-- C3 (witness): the sentinel theorem applied to the concrete non-JSON
credential remainder `"!!"`. -/
theorem c3_fake_token_failure_sentinel_witness :
    jsonParse (bufB64ToString "!!") = none ∧
    tokToSubjectFakeToks "!!" = .val (.str "Fake token failure") :=
  ⟨rfl, c3_fake_token_failure_sentinel "!!" rfl⟩

/-- C4 (counterexample): the claim sends every header value that is NOT
shorter than the 7-character prefix into token resolution, but the code's gate
is `token.length > 7`, so the 7-character value `"Bearer "` itself gets the
no-credential sentinel where the claim requires resolution of the empty
remainder (which would yield `"Fake token failure"`). -/
theorem c4_counterexample_length_seven_header :
    contextToSubject (some "Bearer ") = .val (.str "no subject present") ∧
    contextToSubjectSpec (some "Bearer ") = .val (.str "Fake token failure") ∧
    contextToSubject (some "Bearer ") ≠ contextToSubjectSpec (some "Bearer ") := by
  refine ⟨rfl, rfl, fun h => ?_⟩
  rw [show contextToSubject (some "Bearer ") = .val (.str "no subject present") from rfl,
    show contextToSubjectSpec (some "Bearer ") = .val (.str "Fake token failure") from rfl] at h
  injection h with h1
  injection h1 with h2
  exact absurd h2 (by decide)

/-- C4 (amended): a request whose Authorization header is absent, empty, or
whose value is at most 7 characters long (i.e. not LONGER than the
`"Bearer "` prefix) resolves to the no-credential sentinel —
`"no subject present"` in the first variant, `"anonymous"` in the second —
without any token decode; a strictly longer value has its first 7 characters
stripped and the remainder passed to token resolution. -/
theorem c4_header_gate (auth : Option String) :
    ((auth.getD "").length ≤ 7 →
      contextToSubject auth = .val (.str "no subject present") ∧
      reqToSubject auth = .ok (.val (.str "anonymous"))) ∧
    (7 < (auth.getD "").length →
      contextToSubject auth = tokToSubject ((auth.getD "").drop 7) ∧
      reqToSubject auth = tokToSubjectV2 ((auth.getD "").drop 7)) := by
  constructor
  · intro h
    refine ⟨?_, ?_⟩
    · unfold contextToSubject
      rw [if_neg (by omega)]
    · unfold reqToSubject
      rw [if_neg (by omega)]
  · intro h
    refine ⟨?_, ?_⟩
    · unfold contextToSubject
      rw [if_pos h]
    · unfold reqToSubject
      rw [if_pos h]

/-- C4 (witness): the gate theorem applied to an absent header and to a
10-character header value. -/
theorem c4_header_gate_witness :
    contextToSubject none = .val (.str "no subject present") ∧
    contextToSubject (some "Bearer abc") = tokToSubject "abc" :=
  ⟨((c4_header_gate none).1 (by decide)).1,
   ((c4_header_gate (some "Bearer abc")).2 (by decide)).1⟩

/-! ### Claims about sentinels and the sample data -/

/-- C5: none of the five sentinel subject values equals the owner of any
account, of any transfer creditor leg, or of any transfer debitor leg of the
sample store, and consequently every sentinel subject filters both query
results down to the empty list; in particular the no-header request resolves
to `"no subject present"` and sees no data. -/
theorem c5_sentinels_yield_empty :
    (sentinelSubjects.all fun s =>
      (dataAccounts.all fun a => !(a.owner == s)) &&
      (dataTransfers.all fun t => !(t.creditor.owner == s) && !(t.debitor.owner == s)) &&
      decide (accountsQuery s = []) && decide (transfersQuery s = [])) = true ∧
    contextToSubject none = .val (.str "no subject present") ∧
    accountsQuery "no subject present" = [] ∧
    transfersQuery "no subject present" = [] :=
  ⟨by decide, rfl, by decide, by decide⟩

/-- C6: the end-to-end scenario on the sample store: the request bearing the
fake token of subject `469863216813` resolves to that subject; the accounts
resolver then returns exactly the accounts `516236577`, `516236582`,
`516236631` — none of which is owned by `467745863242` — and the transfers
resolver returns exactly the one transfer whose creditor leg is owned by
`469863216813`. -/
theorem c6_end_to_end_sample :
    contextToSubject (some ("Bearer " ++ fakeToken469863216813)) =
      .val (.str "469863216813") ∧
    accountsQuery "469863216813" = [acct516236577, acct516236582, acct516236631] ∧
    (accountsQuery "469863216813").map Account.id =
      ["516236577", "516236582", "516236631"] ∧
    (accountsQuery "469863216813").all (fun a => !(a.owner == "467745863242")) = true ∧
    transfersQuery "469863216813" = [transfer1] ∧
    transfer1.creditor.owner = "469863216813" :=
  ⟨rfl, by decide, by decide, by decide, by decide, rfl⟩

/-! ### Claims about the remote introspection strategy -/

/-- Helper: when `c` occurs in `l`, `indexOf` is nonnegative and taking that
many characters is exactly the segment before the first occurrence of `c`. -/
theorem jsIndexOfAux_mem (c : Char) :
    ∀ l : List Char, c ∈ l →
      0 ≤ jsIndexOfAux c l ∧
      l.take (jsIndexOfAux c l).toNat = l.takeWhile (fun x => !(x == c)) := by
  intro l
  induction l with
  | nil => intro h; cases h
  | cons x rest ih =>
    intro hmem
    by_cases hx : x == c
    · constructor
      · simp [jsIndexOfAux, hx]
      · simp [jsIndexOfAux, hx, List.takeWhile_cons]
    · have hc : c ∈ rest := by
        rcases List.mem_cons.mp hmem with h | h
        · exact absurd (beq_iff_eq.mpr h.symm) hx
        · exact h
      obtain ⟨h0, htake⟩ := ih hc
      have hlt : ¬(jsIndexOfAux c rest < 0) := by omega
      constructor
      · simp only [jsIndexOfAux, if_neg hx, if_neg hlt]
        omega
      · simp only [jsIndexOfAux, if_neg hx, if_neg hlt]
        have htn : (jsIndexOfAux c rest + 1).toNat = (jsIndexOfAux c rest).toNat + 1 := by
          omega
        rw [htn, List.take_succ_cons, List.takeWhile_cons, htake]
        simp [hx]

/-- C7: for the remote strategy, when the introspection response body parses
as JSON, an `active` field equal to `false` makes the resolver return
`"not authenticated"`, and an `active` field equal to `true` makes it return
the part of the `Username` string before its first `@`. -/
theorem c7_introspection_active_semantics (body : String) (resp : Json) (u : String)
    (hparse : jsonParse body = some resp) :
    (jsGetProp resp "active" = .ok (.val (.jbool false)) →
      tokToSubjectIntrospection (.body body) = "not authenticated") ∧
    (jsGetProp resp "active" = .ok (.val (.jbool true)) →
      jsGetProp resp "Username" = .ok (.val (.str u)) →
      atChar ∈ u.data →
      tokToSubjectIntrospection (.body body) =
        ⟨u.data.takeWhile (fun x => !(x == atChar))⟩) := by
  have hbody : introspectionBody body = introspectionHandle resp := by
    unfold introspectionBody
    rw [hparse]
  constructor
  · intro hact
    show (match introspectionBody body with
      | .ok subject => subject
      | .error _ => "Introspection failed") = _
    rw [hbody]
    unfold introspectionHandle
    rw [hact]
    rfl
  · intro hact huser hmem
    show (match introspectionBody body with
      | .ok subject => subject
      | .error _ => "Introspection failed") = _
    rw [hbody]
    unfold introspectionHandle
    rw [hact, huser]
    show jsSubstringTo u (jsIndexOf u atChar) = _
    unfold jsSubstringTo jsIndexOf
    exact congrArg String.mk (jsIndexOfAux_mem atChar u.data hmem).2

/-- C7 (witness): the semantics theorem applied to the two mocked response
bodies of the spec, yielding subjects `"not authenticated"` and `"abc"`. -/
theorem c7_introspection_witness :
    tokToSubjectIntrospection (.body "\x7b\"active\":false\x7d") = "not authenticated" ∧
    tokToSubjectIntrospection (.body "\x7b\"active\":true,\"Username\":\"abc@example.com\"\x7d") =
      "abc" := by
  constructor
  · exact (c7_introspection_active_semantics "\x7b\"active\":false\x7d"
      (.obj [("active", .jbool false)]) "" (by rfl)).1 (by rfl)
  · have h := (c7_introspection_active_semantics
      "\x7b\"active\":true,\"Username\":\"abc@example.com\"\x7d"
      (.obj [("active", .jbool true), ("Username", .str "abc@example.com")])
      "abc@example.com" (by rfl)).2 (by rfl) (by rfl) (by decide)
    exact h.trans (by decide)

/-- C8: for the remote strategy, an unparsable response body and a faulted
call both yield `"Introspection failed"` with no fault propagating; and the
payload in which `active` is the number `1` — present, not strictly the
boolean `true`, and not falsy — likewise yields `"Introspection failed"`
(the resolver takes the truthy branch, `Username` is absent, and the
resulting `TypeError` is caught by the surrounding try/catch). -/
theorem c8_introspection_failure_sentinel :
    (∀ body : String, jsonParse body = none →
      tokToSubjectIntrospection (.body body) = "Introspection failed") ∧
    tokToSubjectIntrospection .fault = "Introspection failed" ∧
    (jsonParse "\x7b\"active\":1\x7d" = some (.obj [("active", .num "1")]) ∧
     jsStrictlyTrue (.val (.num "1")) = false ∧
     jsTruthy (.val (.num "1")) = true ∧
     tokToSubjectIntrospection (.body "\x7b\"active\":1\x7d") = "Introspection failed") := by
  refine ⟨?_, rfl, rfl, rfl, rfl, rfl⟩
  intro body h
  show (match introspectionBody body with
    | .ok subject => subject
    | .error _ => "Introspection failed") = _
  unfold introspectionBody
  rw [h]

/-- C8 (witness): the failure theorem applied to the concrete unparsable
body `"nope"`. -/
theorem c8_introspection_failure_witness :
    tokToSubjectIntrospection (.body "nope") = "Introspection failed" :=
  c8_introspection_failure_sentinel.1 "nope" rfl

/-- C10: a credential remainder that decodes to valid JSON without a
`subject` field — here the base64 of the object with single key `a` — makes
the local strategy return `undefined` rather than any sentinel string, and
that `undefined` is what `contextToSubject` writes into the request context:
the context's subject is not always a string. -/
theorem c10_missing_subject_undefined :
    bufB64ToString "eyJhIjoxfQ==" = "\x7b\"a\":1\x7d" ∧
    tokToSubjectFakeToks "eyJhIjoxfQ==" = .undefined ∧
    contextToSubject (some "Bearer eyJhIjoxfQ==") = .undefined :=
  ⟨rfl, rfl, rfl⟩

/-! ### The local-token round trip (C9) -/

/-- Helper: decoding the alphabet character of any sextet returns that
sextet. -/
theorem b64SextetOf_CharOf : ∀ s : Nat, s < 64 → b64SextetOf (b64CharOf s) = some s := by
  decide

/-- Helper: the padding character is outside the alphabet and is skipped. -/
theorem b64SextetOf_pad : b64SextetOf b64PadChar = none := by decide

/-- Helper: decoding the base64 encoding of any byte sequence returns that
byte sequence. -/
theorem b64_bytes_roundtrip (bs : List Nat) (hb : ∀ b ∈ bs, b < 256) :
    b64BytesOfSextets ((b64EncodeBytes bs).filterMap b64SextetOf) = bs := by
  induction bs using b64EncodeBytes.induct with
  | case1 => rfl
  | case2 b1 =>
    have h1 : b1 < 256 := hb b1 (by simp)
    have e1 := b64SextetOf_CharOf (b1 / 4) (by omega)
    have e2 := b64SextetOf_CharOf (b1 % 4 * 16) (by omega)
    simp only [b64EncodeBytes, List.filterMap_cons, e1, e2, b64SextetOf_pad,
      List.filterMap_nil, b64BytesOfSextets]
    have r1 : b1 / 4 * 4 + b1 % 4 * 16 / 16 = b1 := by omega
    rw [r1]
  | case3 b1 b2 =>
    have h1 : b1 < 256 := hb b1 (by simp)
    have h2 : b2 < 256 := hb b2 (by simp)
    have e1 := b64SextetOf_CharOf (b1 / 4) (by omega)
    have e2 := b64SextetOf_CharOf (b1 % 4 * 16 + b2 / 16) (by omega)
    have e3 := b64SextetOf_CharOf (b2 % 16 * 4) (by omega)
    simp only [b64EncodeBytes, List.filterMap_cons, e1, e2, e3, b64SextetOf_pad,
      List.filterMap_nil, b64BytesOfSextets]
    have r1 : b1 / 4 * 4 + (b1 % 4 * 16 + b2 / 16) / 16 = b1 := by omega
    have r2 : (b1 % 4 * 16 + b2 / 16) % 16 * 16 + b2 % 16 * 4 / 4 = b2 := by omega
    rw [r1, r2]
  | case4 b1 b2 b3 rest ih =>
    have h1 : b1 < 256 := hb b1 (by simp)
    have h2 : b2 < 256 := hb b2 (by simp)
    have h3 : b3 < 256 := hb b3 (by simp)
    have e1 := b64SextetOf_CharOf (b1 / 4) (by omega)
    have e2 := b64SextetOf_CharOf (b1 % 4 * 16 + b2 / 16) (by omega)
    have e3 := b64SextetOf_CharOf (b2 % 16 * 4 + b3 / 64) (by omega)
    have e4 := b64SextetOf_CharOf (b3 % 64) (by omega)
    have ih2 := ih (fun b hbm => hb b (by simp [hbm]))
    simp only [b64EncodeBytes, List.filterMap_cons, e1, e2, e3, e4, b64BytesOfSextets, ih2]
    have r1 : b1 / 4 * 4 + (b1 % 4 * 16 + b2 / 16) / 16 = b1 := by omega
    have r2 : (b1 % 4 * 16 + b2 / 16) % 16 * 16 + (b2 % 16 * 4 + b3 / 64) / 4 = b2 := by omega
    have r3 : (b2 % 16 * 4 + b3 / 64) % 4 * 64 + b3 % 64 = b3 := by omega
    rw [r1, r2, r3]

/-- Helper: decoding the base64 encoding of an ASCII string returns that
string (the encode-then-decode direction used by the local-token claim). -/
theorem bufB64_roundtrip_ascii (s : String) (h : ∀ c ∈ s.data, c.toNat < 128) :
    bufB64ToString (b64EncodeString s) = s := by
  have hb : ∀ b ∈ strToBytes s, b < 256 := by
    intro b hbm
    obtain ⟨c, hc, rfl⟩ := List.mem_map.mp hbm
    exact lt_trans (h c hc) (by omega)
  unfold bufB64ToString b64EncodeString b64DecodeToBytes
  rw [show (⟨b64EncodeBytes (strToBytes s)⟩ : String).data = b64EncodeBytes (strToBytes s)
    from rfl]
  rw [b64_bytes_roundtrip _ hb]
  unfold strToBytes
  rw [List.map_map]
  rw [show (Char.ofNat ∘ Char.toNat) = id from funext (fun c => Char.ofNat_toNat c)]
  rw [List.map_id]

/-- Helper: the string-literal parser consumes exactly the quote-free,
backslash-free content up to the closing quote. -/
theorem parseStrBody_safe (content : List Char) (rest : List Char)
    (h : ∀ c ∈ content, ¬c = Char.ofNat 34 ∧ ¬c = Char.ofNat 92) :
    parseStrBody (content ++ Char.ofNat 34 :: rest) = some (content, rest) := by
  induction content with
  | nil =>
    rw [List.nil_append, parseStrBody.eq_def]
    simp +decide
  | cons c content ih =>
    obtain ⟨h34, h92⟩ := h c (by simp)
    have hb34 : (c == Char.ofNat 34) = false := by simp [h34]
    have hb92 : (c == Char.ofNat 92) = false := by simp [h92]
    rw [List.cons_append, parseStrBody.eq_def]
    simp only [hb34, hb92, Bool.false_eq_true, if_false]
    rw [ih (fun x hx => h x (by simp [hx]))]

/-- Helper: the value parser on a quoted safe content string. -/
theorem parseValue_str (fuel : Nat) (content : List Char) (rest : List Char)
    (h : ∀ c ∈ content, ¬c = Char.ofNat 34 ∧ ¬c = Char.ofNat 92) :
    parseValue (fuel + 1) (Char.ofNat 34 :: (content ++ Char.ofNat 34 :: rest)) =
      some (.str ⟨content⟩, rest) := by
  rw [parseValue.eq_2, skipWs.eq_2]
  simp +decide [parseStrBody_safe content rest h]

/-- Helper: the member parser on the single member `"subject": "<content>"`
followed by the closing brace. -/
theorem parseMembers_subject (fuel : Nat) (content : List Char)
    (h : ∀ c ∈ content, ¬c = Char.ofNat 34 ∧ ¬c = Char.ofNat 92) :
    parseMembers (fuel + 2)
      (Char.ofNat 34 :: 's' :: 'u' :: 'b' :: 'j' :: 'e' :: 'c' :: 't' :: Char.ofNat 34 ::
        Char.ofNat 58 :: Char.ofNat 34 :: (content ++ [Char.ofNat 34, Char.ofNat 125])) =
      some ([("subject", .str ⟨content⟩)], []) := by
  have hkey := parseStrBody_safe (['s', 'u', 'b', 'j', 'e', 'c', 't'])
    (Char.ofNat 58 :: Char.ofNat 34 :: (content ++ [Char.ofNat 34, Char.ofNat 125]))
    (by decide)
  simp only [List.cons_append, List.nil_append] at hkey
  have hval := parseValue_str fuel content [Char.ofNat 125] h
  show parseMembers ((fuel + 1) + 1) _ = _
  simp +decide [parseMembers, hkey, hval, skipWs.eq_2]

/-- Helper: `JSON.parse` on the rendered document of a single `subject`
member whose content is free of quotes and backslashes. -/
theorem jsonParse_subject_doc (X : String)
    (h : ∀ c ∈ X.data, ¬c = Char.ofNat 34 ∧ ¬c = Char.ofNat 92) :
    jsonParse ("\x7b\"subject\":\"" ++ X ++ "\"\x7d") =
      some (.obj [("subject", .str X)]) := by
  have hdata : ("\x7b\"subject\":\"" ++ X ++ "\"\x7d").data =
      Char.ofNat 123 :: Char.ofNat 34 :: 's' :: 'u' :: 'b' :: 'j' :: 'e' :: 'c' :: 't' ::
        Char.ofNat 34 :: Char.ofNat 58 :: Char.ofNat 34 ::
        (X.data ++ [Char.ofNat 34, Char.ofNat 125]) := rfl
  have hlen : ("\x7b\"subject\":\"" ++ X ++ "\"\x7d").length = X.data.length + 14 := by
    have h0 : ("\x7b\"subject\":\"" ++ X ++ "\"\x7d").length =
        ("\x7b\"subject\":\"" ++ X ++ "\"\x7d").data.length := rfl
    rw [h0, hdata]
    simp [List.length_append]
  have hv : parseValue (X.data.length + 14 + 1)
      (Char.ofNat 123 :: Char.ofNat 34 :: 's' :: 'u' :: 'b' :: 'j' :: 'e' :: 'c' :: 't' ::
        Char.ofNat 34 :: Char.ofNat 58 :: Char.ofNat 34 ::
        (X.data ++ [Char.ofNat 34, Char.ofNat 125])) =
      some (.obj [("subject", .str X)], []) := by
    rw [parseValue.eq_2]
    simp +decide [skipWs.eq_2]
    have h14 : X.length + 14 = (X.length + 12) + 2 := by omega
    rw [h14, parseMembers_subject (X.length + 12) X.data h]
  unfold jsonParse
  rw [hlen, hdata, hv]
  rfl

/-- C9: encoding the JSON object with `subject` field `X` as a base64 local
token and resolving it through the local strategy yields subject `X` again,
for every non-empty `X` whose characters are valid for the encoding modelled
here (ASCII, no quote, no backslash). -/
theorem c9_local_token_round_trip (X : String) (hne : X ≠ "")
    (hsafe : ∀ c ∈ X.data, c.toNat < 128 ∧ ¬c = Char.ofNat 34 ∧ ¬c = Char.ofNat 92) :
    tokToSubjectFakeToks (fakeTokenFor X) = .val (.str X) := by
  have hascii : ∀ c ∈ ("\x7b\"subject\":\"" ++ X ++ "\"\x7d").data, c.toNat < 128 := by
    intro c hc
    rw [String.data_append, String.data_append] at hc
    rcases List.mem_append.mp hc with hc1 | hc2
    · rcases List.mem_append.mp hc1 with hc0 | hcX
      · have hlit : ∀ c ∈ ("\x7b\"subject\":\"" : String).data, c.toNat < 128 := by decide
        exact hlit c hc0
      · exact (hsafe c hcX).1
    · have hlit : ∀ c ∈ ("\"\x7d" : String).data, c.toNat < 128 := by decide
      exact hlit c hc2
  unfold tokToSubjectFakeToks fakeTokenFor
  rw [bufB64_roundtrip_ascii _ hascii]
  rw [jsonParse_subject_doc X (fun c hc => (hsafe c hc).2)]
  rfl

/-- C9 (witness): the round trip applied to the concrete subject
`469863216813` of the sample data. -/
theorem c9_round_trip_witness :
    "469863216813" ≠ "" ∧
    tokToSubjectFakeToks (fakeTokenFor "469863216813") = .val (.str "469863216813") :=
  ⟨by decide, c9_local_token_round_trip "469863216813" (by decide) (by decide)⟩
